import Mathlib

/-
Verification of the order-adjudication core of an automated Diplomacy
adjudicator.  The definitions below are a shallow embedding of the Rust
sources under `src/game_pieces/src/`:

  * `order.rs`      — `OrderType`, `Order`, the predicate methods, the
                      dependency-graph builder `create_order_dependency_graph`
                      and the resolution loop `resolve_all_non_dependant_edges`;
  * `province/mod.rs` — `ProvinceType` and its convoy predicates;
  * `map/mod.rs`    — `Connection::new` and `Connection::allowed`;
  * `unit.rs`       — `UnitType`.

Machine integers: `ProvinceID` is `u8` in the source, but the program only
ever compares identifiers for equality and order (no arithmetic), so the
identifiers are modelled as `Nat`.  `order_strength` is `u8`; the single
arithmetic operation on it (`increase_strength`, `+= 1`) is never executed
by the code modelled here (its only call site is commented out in the
source), so no wrap-around modelling is required.
-/

/-- `OrderType` from `order.rs` (lines 15–33). -/
inductive OrderType where
  | Hold
  | Move
  | Support
  | Convoy
  | IllegalOrder
  | RequiredOrderNotGiven
  | SupportCut
deriving DecidableEq, BEq, Inhabited

/-- `ProvinceID` is `u8` in `province/mod.rs`; only equality and `<` are used. -/
abbrev ProvinceID := Nat

/-- The `Order` struct from `order.rs` (lines 37–61). -/
structure Order where
  original_order_type : OrderType
  order_type : OrderType
  order_of : ProvinceID
  order_from : ProvinceID
  order_to : ProvinceID
  order_strength : Nat
  resolved : Bool
  dislodged : Bool
deriving DecidableEq, Inhabited

/-- `Order::is_moving_into` (order.rs lines 64–66). -/
def Order.is_moving_into (o : Order) (destination : ProvinceID) : Bool :=
  (o.order_type == OrderType.Move) && (o.order_to == destination)

/-- `Order::is_support_holding` (order.rs lines 68–74). -/
def Order.is_support_holding (o : Order) (supporting : ProvinceID) : Bool :=
  (o.order_type == OrderType.Support)
    && (o.order_from == supporting)
    && (o.order_to == supporting)

/-- `Order::is_support_moving` (order.rs lines 76–80). -/
def Order.is_support_moving (o : Order) (src dst : ProvinceID) : Bool :=
  (o.order_type == OrderType.Support)
    && (o.order_from == src)
    && (o.order_to == dst)

/-- `Order::is_convoying` (order.rs lines 82–84). -/
def Order.is_convoying (o : Order) (src dst : ProvinceID) : Bool :=
  (o.order_type == OrderType.Convoy) && (o.order_from == src) && (o.order_to == dst)

/-- A petgraph `Graph<&Order, (), Directed>` together with the insertion order
of its nodes: node `i` is `nodes[i]`, and `edges` lists the directed edges
`(source, target)` in insertion order (petgraph graphs are multigraphs, but
the builder below adds at most one edge per ordered pair). -/
structure OrderGraph where
  nodes : List Order
  edges : List (Nat × Nat)
deriving DecidableEq, Inhabited

/-- petgraph `Graph::add_node`: appends the node and returns its index, which
is the node count before insertion. -/
def OrderGraph.add_node (g : OrderGraph) (o : Order) : OrderGraph × Nat :=
  ({ g with nodes := g.nodes ++ [o] }, g.nodes.length)

/-- The first loop of `create_order_dependency_graph` (order.rs lines 96–98):
`nodes.push((order, ret_graph.add_node(order)))` for each input order. -/
def buildNodes : List Order → OrderGraph → OrderGraph × List (Order × Nat)
  | [], g => (g, [])
  | o :: rest, g =>
    let gi := g.add_node o
    let tail := buildNodes rest gi.1
    (tail.1, (o, gi.2) :: tail.2)

/-- The edge condition of the double loop in `create_order_dependency_graph`
(order.rs lines 114–147): does `current` get an edge to `check`?  The match
arms and the boolean conditions are transcribed branch for branch; note that
the `Move` arm's conditions (3)–(5) compare the raw `order_of`/`order_to`/
`order_from` fields of `check` without inspecting `check.order_type`. -/
def dependsOn (current check : Order) : Bool :=
  match current.order_type with
  | OrderType.Hold | OrderType.Convoy | OrderType.Support
  | OrderType.RequiredOrderNotGiven | OrderType.SupportCut =>
      check.is_support_holding current.order_of
        || check.is_moving_into current.order_of
  | OrderType.IllegalOrder =>
      check.is_moving_into current.order_of
  | OrderType.Move =>
      check.is_support_moving current.order_from current.order_to
        || (check.order_of == current.order_to)
        || (check.order_to == current.order_to)
        || (check.order_to == current.order_from
              && check.order_from == current.order_to)
        || check.is_convoying current.order_from current.order_to

/-- The double loop of `create_order_dependency_graph` (order.rs lines
107–149): for every ordered pair drawn from the node list — self-pairs
included, the source has no `X ≠ Y` guard — add the edge
`(current_idx, check_idx)` when `dependsOn` holds. -/
def addDependencyEdges (nodes : List (Order × Nat)) : List (Nat × Nat) :=
  nodes.flatMap (fun ci =>
    nodes.filterMap (fun cj =>
      if dependsOn ci.1 cj.1 then some (ci.2, cj.2) else none))

/-- `create_order_dependency_graph` (order.rs lines 91–152): build the nodes,
then add the dependency edges, and return the graph with the node list. -/
def create_order_dependency_graph (orders : List Order) :
    OrderGraph × List (Order × Nat) :=
  let built := buildNodes orders { nodes := [], edges := [] }
  ({ built.1 with edges := addDependencyEdges built.2 }, built.2)

/-- Number of outgoing edges of node `i`:
`order_graph.edges_directed(*index, Outgoing).count()`. -/
def outgoingCount (g : OrderGraph) (i : Nat) : Nat :=
  (g.edges.filter (fun e => e.1 == i)).length

/-- The incoming edges of node `i`:
`order_graph.edges_directed(*index, Incoming)`. -/
def incomingEdges (g : OrderGraph) (i : Nat) : List (Nat × Nat) :=
  g.edges.filter (fun e => e.2 == i)

/-- Outcome of the `resolve_all_non_dependant_edges` while loop.  `panicked`
models a Rust panic (the `.unwrap()` on an empty incoming-edge iterator,
order.rs line 171, or the `unimplemented!()` arm, line 176); `outOfFuel`
marks that the supplied pass budget was exhausted with the loop still
wanting another pass. -/
inductive LoopResult where
  | finished (g : OrderGraph)
  | panicked
  | outOfFuel
deriving DecidableEq

/-- The body of the for loop in `resolve_all_non_dependant_edges` (order.rs
lines 162–180) for one node-list entry `(order, index)`.  The state is the
graph paired with the `any_resolved` flag.  In the `Support` arm the source
computes `dependent_node_index` from the first incoming edge, but the
strength-increment call on it is commented out (line 173) and no node or
edge is removed, so the state is returned unchanged; no statement in the
loop body ever sets `any_resolved` to `true`. -/
def resolve_step (g : OrderGraph) (flag : Bool) (entry : Order × Nat) :
    Option (OrderGraph × Bool) :=
  if outgoingCount g entry.2 = 0 then
    match entry.1.order_type with
    | OrderType.Support =>
      match (incomingEdges g entry.2).head? with
      | some _e => some (g, flag)
      | none => none
    | _ => none
  else some (g, flag)

/-- One pass of the for loop over the node list, threading the graph and the
`any_resolved` flag and aborting on a panic. -/
def resolve_pass_aux : OrderGraph → Bool → List (Order × Nat) →
    Option (OrderGraph × Bool)
  | g, flag, [] => some (g, flag)
  | g, flag, e :: rest =>
    match resolve_step g flag e with
    | none => none
    | some st => resolve_pass_aux st.1 st.2 rest

/-- One full pass: `any_resolved` is reset to `false` at the top of each
iteration of the while loop (order.rs line 160). -/
def resolve_pass (g : OrderGraph) (nodes : List (Order × Nat)) :
    Option (OrderGraph × Bool) :=
  resolve_pass_aux g false nodes

/-- The while loop of `resolve_all_non_dependant_edges` (order.rs lines
159–181) with an explicit pass budget: run a pass; if `any_resolved` came
back `true` loop again, otherwise stop.  `resolve_loop_fuel_irrelevant`
below shows that every positive budget produces the same result, so the
budget is a proof device, not a behavioural change. -/
def resolve_loop : Nat → OrderGraph → List (Order × Nat) → LoopResult
  | 0, _, _ => LoopResult.outOfFuel
  | fuel + 1, g, nodes =>
    match resolve_pass g nodes with
    | none => LoopResult.panicked
    | some st =>
      if st.2 then resolve_loop fuel st.1 nodes else LoopResult.finished st.1

/-- `resolve_all_non_dependant_edges` (order.rs lines 155–182). -/
def resolve_all_non_dependant_edges (g : OrderGraph)
    (nodes : List (Order × Nat)) : LoopResult :=
  resolve_loop (nodes.length + 1) g nodes

/-- `ProvinceType` from `province/mod.rs` (lines 6–15). -/
inductive ProvinceType where
  | Land
  | Coast
  | Water
  | DeepSea
deriving DecidableEq, Inhabited

/-- `ProvinceType::can_convoy_through` (province/mod.rs lines 19–26). -/
def ProvinceType.can_convoy_through : ProvinceType → Bool
  | ProvinceType.Land => false
  | ProvinceType.Coast => false
  | ProvinceType.Water => true
  | ProvinceType.DeepSea => true

/-- `ProvinceType::can_convoy_into` (province/mod.rs lines 29–36). -/
def ProvinceType.can_convoy_into : ProvinceType → Bool
  | ProvinceType.Land => true
  | ProvinceType.Coast => true
  | ProvinceType.Water => false
  | ProvinceType.DeepSea => false

/-- `ProvinceType::can_convoy_out_of` (province/mod.rs lines 39–46). -/
def ProvinceType.can_convoy_out_of : ProvinceType → Bool
  | ProvinceType.Land => true
  | ProvinceType.Coast => true
  | ProvinceType.Water => false
  | ProvinceType.DeepSea => false

/-- `UnitType` from `unit.rs` (lines 4–8). -/
inductive UnitType where
  | Army
  | Fleet
deriving DecidableEq, Inhabited

/-- The `Connection` struct from `map/mod.rs` (lines 6–10). -/
structure Connection where
  province_1_id : ProvinceID
  province_2_id : ProvinceID
  allowed_unit_types : List UnitType
deriving DecidableEq

/-- `Connection::new` (map/mod.rs lines 13–35): panic (modelled as `none`) on
equal identifiers, otherwise store the smaller identifier first. -/
def Connection.new (province_1_id province_2_id : ProvinceID)
    (allowed_unit_types : List UnitType) : Option Connection :=
  if province_1_id = province_2_id then none
  else if province_1_id < province_2_id then
    some { province_1_id := province_1_id, province_2_id := province_2_id,
           allowed_unit_types := allowed_unit_types }
  else
    some { province_1_id := province_2_id, province_2_id := province_1_id,
           allowed_unit_types := allowed_unit_types }

/-- `Connection::allowed` (map/mod.rs lines 37–39). -/
def Connection.allowed (c : Connection) (unit_type : UnitType) : Bool :=
  c.allowed_unit_types.contains unit_type

/-- Modelled from the spec: the repository declares the `Order` struct and its
predicate methods, but no constructor for `Order` exists anywhere under
`src/`.  Spec §4.1 and §7 describe construction: per §3 a Hold has
`source = target = location` and a Move has `source = location`; §4.1 says
construction fails if `location == target` for a Move or if source/target are
reused inconsistently with the declared kind; §7 says an `Order` whose
`location` equals its `target` for a non-Hold kind fails immediately at
construction; §3 says the synthetic kinds are never player input. -/
def Order.new (kind : OrderType) (location source target : ProvinceID) :
    Option Order :=
  let mk : Order :=
    { original_order_type := kind, order_type := kind, order_of := location,
      order_from := source, order_to := target, order_strength := 1,
      resolved := false, dislodged := false }
  match kind with
  | OrderType.Hold =>
      if source = location ∧ target = location then some mk else none
  | OrderType.Move =>
      if source = location ∧ target ≠ location then some mk else none
  | OrderType.Support =>
      if target ≠ location then some mk else none
  | OrderType.Convoy =>
      if target ≠ location then some mk else none
  | _ => none

/-
Lemma layer: the shape of the builder's output and the behaviour of the
resolution loop's pass body.
-/

/-- `buildNodes` only appends the input orders to the graph's node list. -/
lemma buildNodes_fst (orders : List Order) (g : OrderGraph) :
    (buildNodes orders g).1 = { g with nodes := g.nodes ++ orders } := by
  induction orders generalizing g with
  | nil => simp [buildNodes]
  | cons o rest ih =>
    simp [buildNodes, OrderGraph.add_node, ih]

/-- `buildNodes` pairs the k-th remaining order with node index
`g.nodes.length + k`. -/
lemma buildNodes_snd (orders : List Order) (g : OrderGraph) :
    (buildNodes orders g).2 =
      (List.range orders.length).map
        (fun k => (orders.getD k default, g.nodes.length + k)) := by
  induction orders generalizing g with
  | nil => simp [buildNodes]
  | cons o rest ih =>
    rw [List.length_cons, List.range_succ_eq_map, List.map_cons, List.map_map]
    simp only [buildNodes, ih, OrderGraph.add_node]
    congr 1
    apply List.map_congr_left
    intro k _
    simp only [Function.comp, List.getD_cons_succ, List.length_append,
      List.length_cons, List.length_nil, Prod.mk.injEq, true_and]
    omega

/-- The node list returned by the builder pairs the k-th input order with
node index k. -/
lemma nodeList_eq (orders : List Order) :
    (create_order_dependency_graph orders).2 =
      (List.range orders.length).map (fun k => (orders.getD k default, k)) := by
  simp [create_order_dependency_graph, buildNodes_snd]

/-- The graph's node list is exactly the input order list. -/
lemma graph_nodes_eq (orders : List Order) :
    (create_order_dependency_graph orders).1.nodes = orders := by
  simp [create_order_dependency_graph, buildNodes_fst]

/-- The graph's edge list is the double loop run over the indexed orders. -/
lemma graph_edges_eq (orders : List Order) :
    (create_order_dependency_graph orders).1.edges =
      addDependencyEdges
        ((List.range orders.length).map (fun k => (orders.getD k default, k))) := by
  simp [create_order_dependency_graph, buildNodes_snd]

/-- Membership in the built edge list, characterised by `dependsOn`. -/
lemma edge_mem_iff (orders : List Order) (a b : Nat) :
    (a, b) ∈ (create_order_dependency_graph orders).1.edges ↔
      a < orders.length ∧ b < orders.length ∧
        dependsOn (orders.getD a default) (orders.getD b default) = true := by
  rw [graph_edges_eq]
  simp only [addDependencyEdges, List.mem_flatMap, List.mem_filterMap,
    List.mem_map, List.mem_range]
  constructor
  · rintro ⟨ci, ⟨i, hi, rfl⟩, cj, ⟨j, hj, rfl⟩, hif⟩
    dsimp only at hif
    split at hif
    · rename_i hd
      rw [Option.some.injEq, Prod.mk.injEq] at hif
      obtain ⟨rfl, rfl⟩ := hif
      exact ⟨hi, hj, hd⟩
    · exact absurd hif (by simp)
  · rintro ⟨ha, hb, hd⟩
    refine ⟨(orders.getD a default, a), ⟨a, ha, rfl⟩,
      ⟨(orders.getD b default, b), ⟨b, hb, rfl⟩, ?_⟩⟩
    dsimp only
    rw [if_pos hd]

/-- `dependsOn` for the Hold/Support/Convoy arms. -/
lemma dependsOn_of_hold_kind (X Y : Order)
    (h : X.order_type = OrderType.Hold ∨ X.order_type = OrderType.Support ∨
         X.order_type = OrderType.Convoy) :
    dependsOn X Y =
      (Y.is_support_holding X.order_of || Y.is_moving_into X.order_of) := by
  rcases h with h | h | h <;> simp [dependsOn, h]

/-- `dependsOn` for the IllegalOrder arm. -/
lemma dependsOn_of_illegal (X Y : Order)
    (h : X.order_type = OrderType.IllegalOrder) :
    dependsOn X Y = Y.is_moving_into X.order_of := by
  simp [dependsOn, h]

/-- One step of the pass body either panics or leaves the state unchanged. -/
lemma resolve_step_cases (g : OrderGraph) (flag : Bool) (e : Order × Nat) :
    resolve_step g flag e = none ∨ resolve_step g flag e = some (g, flag) := by
  unfold resolve_step
  split
  · split
    · split
      · exact Or.inr rfl
      · exact Or.inl rfl
    · exact Or.inl rfl
  · exact Or.inr rfl

/-- A completed pass leaves both the graph and the `any_resolved` flag
unchanged: no statement in the loop body mutates either. -/
lemma resolve_pass_aux_eq (l : List (Order × Nat)) (g : OrderGraph)
    (flag : Bool) :
    resolve_pass_aux g flag l = none ∨
      resolve_pass_aux g flag l = some (g, flag) := by
  induction l generalizing g flag with
  | nil => exact Or.inr rfl
  | cons e rest ih =>
    unfold resolve_pass_aux
    rcases resolve_step_cases g flag e with h | h <;> rw [h]
    · exact Or.inl rfl
    · exact ih g flag

/-- A full pass either panics or returns the graph unchanged with
`any_resolved = false`. -/
lemma resolve_pass_eq (g : OrderGraph) (nodes : List (Order × Nat)) :
    resolve_pass g nodes = none ∨ resolve_pass g nodes = some (g, false) :=
  resolve_pass_aux_eq nodes g false

/-- Any positive pass budget yields the same loop result: the loop always
stops (normally or by panic) within its first pass. -/
lemma resolve_loop_fuel_irrelevant (g : OrderGraph)
    (nodes : List (Order × Nat)) (fuel : Nat) (h : 1 ≤ fuel) :
    resolve_loop fuel g nodes = resolve_loop 1 g nodes := by
  obtain ⟨f, rfl⟩ : ∃ f, fuel = f + 1 := ⟨fuel - 1, by omega⟩
  rcases resolve_pass_eq g nodes with hp | hp <;>
    simp [resolve_loop, hp]

/-
Claim theorems.
-/

/-- The five edge conditions the spec states for a Move order X from A to B
(spec §4.2), transcribed from the spec's words for comparison with the
source's `dependsOn`: Y Support-Moves A→B; Y is located at B; Y is itself a
Move to B; Y is a Move from B to A; Y is a Convoy of A→B. -/
def specMoveDependsOn (X Y : Order) : Bool :=
  Y.is_support_moving X.order_from X.order_to
    || (Y.order_of == X.order_to)
    || (Y.order_type == OrderType.Move && Y.order_to == X.order_to)
    || (Y.order_type == OrderType.Move && Y.order_from == X.order_to
          && Y.order_to == X.order_from)
    || Y.is_convoying X.order_from X.order_to

/-- A Move 0→1 together with a Support sitting at 3 that supports a move
2→1.  The Support satisfies none of the spec's five conditions for the
Move's edges. -/
def ordersC1 : List Order :=
  [ { original_order_type := OrderType.Move, order_type := OrderType.Move,
      order_of := 0, order_from := 0, order_to := 1, order_strength := 1,
      resolved := false, dislodged := false },
    { original_order_type := OrderType.Support, order_type := OrderType.Support,
      order_of := 3, order_from := 2, order_to := 1, order_strength := 1,
      resolved := false, dislodged := false } ]

/-- C1: refuted on the code.  Order 0 is a Move 0→1 and order 1 is a Support
(located at 3) of a move 2→1, so none of the claim's five conditions holds
for the pair — in particular order 1 is not itself a Move — yet the builder
adds the edge 0→1, because the source's condition (4) compares the raw
`order_to` fields without inspecting the checked order's kind, contradicting
the source's own comment "a unit moving into a location is dependant on any
unit also moving into that location". -/
theorem C1_dependency_edge_without_move_kind :
    (ordersC1.getD 0 default).order_type = OrderType.Move ∧
    specMoveDependsOn (ordersC1.getD 0 default) (ordersC1.getD 1 default) = false ∧
    (0, 1) ∈ (create_order_dependency_graph ordersC1).1.edges := by decide

/-- A single Move order 0→1. -/
def orderC2 : Order :=
  { original_order_type := OrderType.Move, order_type := OrderType.Move,
    order_of := 0, order_from := 0, order_to := 1, order_strength := 1,
    resolved := false, dislodged := false }

/-- C2: refuted on the code.  The builder's double loop has no `X ≠ Y`
guard, so for an order set consisting of one Move order the shared-
destination condition (4) fires on the self-pair and the single node
receives an edge to itself. -/
theorem C2_move_gains_self_edge :
    (create_order_dependency_graph [orderC2]).1.nodes.length = 1 ∧
    (0, 0) ∈ (create_order_dependency_graph [orderC2]).1.edges := by decide

/-- A Hold at 0 supported by a Support-Hold sitting at 2. -/
def ordersC3 : List Order :=
  [ { original_order_type := OrderType.Hold, order_type := OrderType.Hold,
      order_of := 0, order_from := 0, order_to := 0, order_strength := 1,
      resolved := false, dislodged := false },
    { original_order_type := OrderType.Support, order_type := OrderType.Support,
      order_of := 2, order_from := 0, order_to := 0, order_strength := 1,
      resolved := false, dislodged := false } ]

/-- The dependency graph of `ordersC3`: one edge, Hold → Support. -/
def graphC3 : OrderGraph := (create_order_dependency_graph ordersC3).1

/-- The node list of `ordersC3`. -/
def nodesC3 : List (Order × Nat) := (create_order_dependency_graph ordersC3).2

/-- C3: refuted on the code as it stands.  Node 1 is a Support with zero
outgoing edges and exactly one incoming edge (0, 1), so the claim requires
the engine to increment the supported order's strength and remove the
Support node with its edges; instead the engine returns the graph completely
unchanged — the strength-increment call is commented out in the source and
no removal is performed — so the Hold's strength is still 1 and the edge is
still present. -/
theorem C3_support_resolution_changes_nothing :
    (graphC3.nodes.getD 1 default).order_type = OrderType.Support ∧
    outgoingCount graphC3 1 = 0 ∧
    incomingEdges graphC3 1 = [(0, 1)] ∧
    resolve_all_non_dependant_edges graphC3 nodesC3 =
      LoopResult.finished graphC3 ∧
    (graphC3.nodes.getD 0 default).order_strength = 1 := by decide

/-- C4 counterexample: on the empty order set the while loop still executes
one full pass, so a pass budget equal to the number of orders (zero) does
not cover the run — the claimed bound "number of passes ≤ number of orders"
fails — while one single pass completes the loop. -/
theorem C4_pass_bound_fails_on_empty_order_set :
    resolve_loop (create_order_dependency_graph []).2.length
        (create_order_dependency_graph []).1
        (create_order_dependency_graph []).2 = LoopResult.outOfFuel ∧
    resolve_all_non_dependant_edges (create_order_dependency_graph []).1
        (create_order_dependency_graph []).2 =
      LoopResult.finished (create_order_dependency_graph []).1 := by decide

/-- C4 amended: the fixpoint procedure terminates on every input, and it
always stops within its very first pass (the pass body never removes a node
and never sets `any_resolved`), so the number of passes is bounded by
`max 1 (number of orders)`; the claimed bound by the number of orders alone
fails only for the empty order set. -/
theorem C4_terminates_within_one_pass (g : OrderGraph)
    (nodes : List (Order × Nat)) (fuel : Nat) (h : 1 ≤ fuel) :
    resolve_loop fuel g nodes = resolve_loop 1 g nodes ∧
    resolve_loop fuel g nodes ≠ LoopResult.outOfFuel ∧
    resolve_all_non_dependant_edges g nodes = resolve_loop 1 g nodes := by
  refine ⟨resolve_loop_fuel_irrelevant g nodes fuel h, ?_,
    resolve_loop_fuel_irrelevant g nodes (nodes.length + 1) (by omega)⟩
  rw [resolve_loop_fuel_irrelevant g nodes fuel h]
  rcases resolve_pass_eq g nodes with hp | hp <;> simp [resolve_loop, hp]

/-- Witness for `C4_terminates_within_one_pass` at a concrete input. -/
theorem C4_terminates_within_one_pass_witness :
    resolve_loop 3 { nodes := [], edges := [] } [] =
      resolve_loop 1 { nodes := [], edges := [] } [] ∧
    resolve_loop 3 { nodes := [], edges := [] } [] ≠ LoopResult.outOfFuel ∧
    resolve_all_non_dependant_edges { nodes := [], edges := [] } [] =
      resolve_loop 1 { nodes := [], edges := [] } [] :=
  C4_terminates_within_one_pass { nodes := [], edges := [] } [] 3 (by omega)

/-- Two Moves 0→1 and 2→1 plus a Support (at 3) of the move 0→1.  The
Support node ends up with zero outgoing edges and two incoming edges: one
from the supported Move via rule (1) and one from the unrelated Move 2→1
via the raw-field condition (4). -/
def ordersC5 : List Order :=
  [ { original_order_type := OrderType.Move, order_type := OrderType.Move,
      order_of := 0, order_from := 0, order_to := 1, order_strength := 1,
      resolved := false, dislodged := false },
    { original_order_type := OrderType.Move, order_type := OrderType.Move,
      order_of := 2, order_from := 2, order_to := 1, order_strength := 1,
      resolved := false, dislodged := false },
    { original_order_type := OrderType.Support, order_type := OrderType.Support,
      order_of := 3, order_from := 0, order_to := 1, order_strength := 1,
      resolved := false, dislodged := false } ]

/-- The dependency graph of `ordersC5`. -/
def graphC5 : OrderGraph := (create_order_dependency_graph ordersC5).1

/-- The node list of `ordersC5`. -/
def nodesC5 : List (Order × Nat) := (create_order_dependency_graph ordersC5).2

/-- C5: refuted on the code.  Node 2 is a Support with zero outgoing edges
and two incoming edges, yet the engine completes normally: it silently uses
the first incoming edge instead of signalling a fatal internal-consistency
failure (the source's own comment says "There should only ever be exactly
one edge dependant on this one. TODO: Make sure this is the case").  Only
the zero-incoming case panics, via the `unwrap`. -/
theorem C5_two_incoming_edges_accepted_silently :
    (graphC5.nodes.getD 2 default).order_type = OrderType.Support ∧
    outgoingCount graphC5 2 = 0 ∧
    (incomingEdges graphC5 2).length = 2 ∧
    resolve_all_non_dependant_edges graphC5 nodesC5 =
      LoopResult.finished graphC5 := by decide

/-- C6: for an order X of kind Hold, Support or Convoy at location L, the
builder gives X an edge to a distinct order Y exactly when Y is a Move into
L or a Support-Hold targeting L; for an IllegalOrder X the edge exists
exactly when Y is a Move into X's location. -/
theorem C6_hold_branch_edge_characterisation (orders : List Order)
    (i j : Nat) (hi : i < orders.length) (hj : j < orders.length)
    (hij : i ≠ j) :
    (((orders.getD i default).order_type = OrderType.Hold ∨
      (orders.getD i default).order_type = OrderType.Support ∨
      (orders.getD i default).order_type = OrderType.Convoy) →
      ((i, j) ∈ (create_order_dependency_graph orders).1.edges ↔
        ((orders.getD j default).is_moving_into
            (orders.getD i default).order_of = true ∨
         (orders.getD j default).is_support_holding
            (orders.getD i default).order_of = true))) ∧
    ((orders.getD i default).order_type = OrderType.IllegalOrder →
      ((i, j) ∈ (create_order_dependency_graph orders).1.edges ↔
        (orders.getD j default).is_moving_into
          (orders.getD i default).order_of = true)) := by
  constructor
  · intro hk
    rw [edge_mem_iff, dependsOn_of_hold_kind _ _ hk]
    simp only [hi, hj, true_and, Bool.or_eq_true]
    tauto
  · intro hk
    rw [edge_mem_iff, dependsOn_of_illegal _ _ hk]
    simp [hi, hj]

/-- A Hold at 0 and a Move 2→0: the Move dislodges or bounces off the Hold,
so the Hold depends on it. -/
def ordersW6 : List Order :=
  [ { original_order_type := OrderType.Hold, order_type := OrderType.Hold,
      order_of := 0, order_from := 0, order_to := 0, order_strength := 1,
      resolved := false, dislodged := false },
    { original_order_type := OrderType.Move, order_type := OrderType.Move,
      order_of := 2, order_from := 2, order_to := 0, order_strength := 1,
      resolved := false, dislodged := false } ]

/-- Witness for `C6_hold_branch_edge_characterisation` at a concrete input. -/
theorem C6_hold_branch_edge_characterisation_witness :
    (0, 1) ∈ (create_order_dependency_graph ordersW6).1.edges ↔
      ((ordersW6.getD 1 default).is_moving_into
          (ordersW6.getD 0 default).order_of = true ∨
       (ordersW6.getD 1 default).is_support_holding
          (ordersW6.getD 0 default).order_of = true) :=
  (C6_hold_branch_edge_characterisation ordersW6 0 1 (by decide) (by decide)
    (by decide)).1 (by decide)

/-- C7 (spec-modelled constructor): building an Order whose declared kind is
not Hold with `location = target` fails — in particular every Move into its
own location is rejected — so such an order never exists and never enters
the dependency graph. -/
theorem C7_contradictory_construction_rejected (kind : OrderType)
    (location source target : ProvinceID)
    (hk : kind ≠ OrderType.Hold) (ht : location = target) :
    Order.new kind location source target = none := by
  subst ht
  cases kind with
  | Hold => exact absurd rfl hk
  | Move => simp [Order.new]
  | Support => simp [Order.new]
  | Convoy => simp [Order.new]
  | IllegalOrder => rfl
  | RequiredOrderNotGiven => rfl
  | SupportCut => rfl

/-- Witness for `C7_contradictory_construction_rejected`. -/
theorem C7_contradictory_construction_rejected_witness :
    Order.new OrderType.Move 4 4 4 = none :=
  C7_contradictory_construction_rejected OrderType.Move 4 4 4 (by decide) rfl

/-- C8: the builder returns one graph node per input order, in input order,
and its node list pairs the k-th input order with node index k. -/
theorem C8_one_node_per_order (orders : List Order) :
    (create_order_dependency_graph orders).1.nodes = orders ∧
    (create_order_dependency_graph orders).2 =
      (List.range orders.length).map (fun k => (orders.getD k default, k)) :=
  ⟨graph_nodes_eq orders, nodeList_eq orders⟩

/-- C9: for every province type, convoying through is possible exactly when
being convoyed into is not, and a type can be convoyed into exactly when it
can be convoyed out of. -/
theorem C9_convoy_predicate_relations (p : ProvinceType) :
    p.can_convoy_through = !p.can_convoy_into ∧
    p.can_convoy_into = p.can_convoy_out_of := by
  cases p <;> exact ⟨rfl, rfl⟩

/-- C10: `Connection.new` is symmetric in its two province identifiers when
they differ — the same connection is stored either way, with the smaller
identifier first, so `allowed` answers identically — and construction on
equal identifiers panics (modelled as `none`). -/
theorem C10_connection_new_symmetric (a b : ProvinceID) (ts : List UnitType)
    (h : a ≠ b) :
    Connection.new a b ts = Connection.new b a ts ∧
    Connection.new a b ts =
      some { province_1_id := min a b, province_2_id := max a b,
             allowed_unit_types := ts } ∧
    (∀ t, (Connection.new a b ts).map (fun c => c.allowed t) =
          (Connection.new b a ts).map (fun c => c.allowed t)) ∧
    Connection.new a a ts = none := by
  rcases Nat.lt_trichotomy a b with hlt | heq | hgt
  · have h1 : Connection.new a b ts = some ⟨a, b, ts⟩ := by
      simp [Connection.new, h, hlt]
    have h2 : Connection.new b a ts = some ⟨a, b, ts⟩ := by
      simp [Connection.new, Ne.symm h, Nat.not_lt.mpr (Nat.le_of_lt hlt)]
    refine ⟨by rw [h1, h2], ?_, fun t => by rw [h1, h2], by simp [Connection.new]⟩
    rw [h1, Nat.min_eq_left hlt.le, Nat.max_eq_right hlt.le]
  · exact absurd heq h
  · have h1 : Connection.new a b ts = some ⟨b, a, ts⟩ := by
      simp [Connection.new, h, Nat.not_lt.mpr (Nat.le_of_lt hgt)]
    have h2 : Connection.new b a ts = some ⟨b, a, ts⟩ := by
      simp [Connection.new, Ne.symm h, hgt]
    refine ⟨by rw [h1, h2], ?_, fun t => by rw [h1, h2], by simp [Connection.new]⟩
    rw [h1, Nat.min_eq_right hgt.le, Nat.max_eq_left hgt.le]

/-- Witness for `C10_connection_new_symmetric`. -/
theorem C10_connection_new_symmetric_witness :
    Connection.new 1 2 [UnitType.Army] = Connection.new 2 1 [UnitType.Army] :=
  (C10_connection_new_symmetric 1 2 [UnitType.Army] (by decide)).1
